import Mathlib

/-!
Shallow embedding of the db2Prom query/metrics pipeline.

Source files embedded here:
  * `app.py` — `sanitize_label_value`, `get_labels_list`, the label
    construction and row → gauge mapping inside `query_set`, and the retry
    backoff of `query_set`.
  * `db2Prom/connection_pool.py` — `ConnectionPool`.
  * `db2Prom/db2.py` — the `Db2Connection.execute` control flow, the worker
    `run_query` fetch loop, and the statement-cleanup blocks.
  * `db2Prom/prometheus.py` — `CustomExporter.create_gauge`.

Python dicts are modelled as association lists (`List (String × String)`)
where a later binding shadows an earlier one, so Python's `a | b` (right
operand wins) and `a.update(b)` are both `a ++ b`; Python sets are modelled
as duplicate-free lists built with `setAdd`.
-/

set_option maxRecDepth 4000
set_option linter.unusedVariables false

namespace Db2Prom

/-- Sentinel for unusable label values (`prometheus.py`: `INVALID_LABEL_STR = "-"`). -/
def INVALID_LABEL_STR : String := "-"

/-- Maximum length for a Prometheus label value (`app.py`: `MAX_LABEL_LENGTH = 100`). -/
def MAX_LABEL_LENGTH : Nat := 100

/-- Characters kept by the regex `[^a-zA-Z0-9_]` of `app.py`: ASCII letters,
digits and underscore. -/
def isAllowedLabelChar (c : Char) : Bool :=
  (97 ≤ c.toNat && c.toNat ≤ 122) ||
  (65 ≤ c.toNat && c.toNat ≤ 90) ||
  (48 ≤ c.toNat && c.toNat ≤ 57) ||
  c == '_'

/-- One step of `_LABEL_CLEAN_RE.sub("_", value_str)`: a disallowed character
is replaced by an underscore. -/
def sanitizeChar (c : Char) : Char :=
  if isAllowedLabelChar c then c else '_'

/-- `app.py` lines 26-60, `sanitize_label_value`.  A `None` value (and a value
whose `str()` fails) is modelled by `none`.  The regex substitution maps
`sanitizeChar` over the characters, an empty result falls back to the
sentinel, and an over-long result is truncated to `max_length`. -/
def sanitize_label_value (value : Option String) (maxLength : Nat := MAX_LABEL_LENGTH) :
    String :=
  match value with
  | none => INVALID_LABEL_STR
  | some v =>
    let sanitized := String.mk (v.data.map sanitizeChar)
    if sanitized = "" then INVALID_LABEL_STR
    else if maxLength < sanitized.length then String.mk (sanitized.data.take maxLength)
    else sanitized

/-- The concrete input of the sanitizer test: `"inv@lid label!!" + "x"*200`. -/
def sanitizeTestInput : String := "inv@lid label!!" ++ String.mk (List.replicate 200 'x')

/-! ### Connection-level labels
(`app.py`: `query_set` lines 137-147 and `get_labels_list` lines 256-270) -/

/-- The fields of one entry of the `connections:` configuration that the label
construction reads. -/
structure ConnConfig where
  db_host : String
  db_port : String
  db_name : String
  extra_labels : Option (List (String × String))

/-- Python `set.add`: append the element unless already present. -/
def setAdd (s : List String) (k : String) : List String :=
  if k ∈ s then s else s ++ [k]

/-- Python set union `|=`, on the duplicate-free list model. -/
def setUnion (a b : List String) : List String := b.foldl setAdd a

/-- Key list of a Python dict modelled as an association list. -/
def dictKeys (d : List (String × String)) : List String := d.map Prod.fst

/-- Python dict lookup: the latest binding of a key wins (later `|` / `update`
operands shadow earlier ones, so the association list is read from the right). -/
def dictGet (d : List (String × String)) (k : String) : Option String :=
  (d.reverse.find? (fun kv => kv.1 == k)).map Prod.snd

/-- `get_labels_list` (`app.py` lines 256-270): union of every connection's
`extra_labels` keys, plus `dbhost`, `dbport` and `dbname`. -/
def get_labels_list (cs : List ConnConfig) : List String :=
  setAdd (setAdd (setAdd
    (cs.foldl (fun acc c => setUnion acc (dictKeys (c.extra_labels.getD []))) [])
    "dbhost") "dbport") "dbname"

/-- The hardcoded `max_conn_labels` set inside `query_set` (`app.py` line 146).
Note that it is a literal, independent of the configured connections. -/
def query_set_max_conn_labels : List String :=
  ["dbhost", "dbenv", "dbname", "dbinstance", "dbport"]

/-- `c_labels` after `app.py` lines 138-144: the three connection fields,
updated with the connection's own `extra_labels` (when present). -/
def query_set_c_labels_base (c : ConnConfig) : List (String × String) :=
  [("dbhost", c.db_host), ("dbport", c.db_port), ("dbname", c.db_name)]
    ++ c.extra_labels.getD []

/-- `c_labels` after `app.py` line 147:
`{i: INVALID_LABEL_STR for i in max_conn_labels} | c_labels`. -/
def query_set_c_labels (c : ConnConfig) : List (String × String) :=
  query_set_max_conn_labels.map (fun k => (k, INVALID_LABEL_STR))
    ++ query_set_c_labels_base c

/-- Sample labels (`app.py` lines 180 and 198): `labels_g = g_labels | c_labels`,
the connection labels overriding the gauge's extra labels. -/
def sample_labels (gLabels : List (String × String)) (c : ConnConfig) :
    List (String × String) :=
  gLabels ++ query_set_c_labels c

/-- A connection that declares the extra label `region`. -/
def connWithRegion : ConnConfig := ⟨"h1", "50000", "db1", some [("region", "eu")]⟩

/-- A connection that declares no extra labels. -/
def connPlain : ConnConfig := ⟨"h2", "50000", "db2", none⟩

/-! ### Row → gauge mapping (`app.py`: `query_set` lines 163-201) -/

/-- A result row; cells are modelled as integers (the mapper treats them
opaquely apart from `str()` for label values). -/
abbrev Row := List Int

/-- Decimal value of a digit string, as Python's `int()`. -/
def digitsToNat (ds : List Char) : Nat :=
  ds.foldl (fun n c => n * 10 + (c.toNat - 48)) 0

/-- The regex `^\$(\d+)$` of `app.py` lines 175 and 188: a label value that is
a positional column reference parses to its (1-based) column number. -/
def parseColumnRef (v : String) : Option Nat :=
  match v.data with
  | '$' :: ds => if ds ≠ [] ∧ ds.all Char.isDigit then some (digitsToNat ds) else none
  | _ => none

/-- `app.py` line 175: fan-out mode is selected when any gauge label value is a
positional column reference. -/
def valuesHaveSpecialLabels (gLabels : List (String × String)) : Bool :=
  gLabels.any (fun kv => (parseColumnRef kv.2).isSome)

/-- Python's `row[i]` including negative indexing, for indices the caller has
already checked to be in range (out-of-range falls back to the `getD`
default, which every use below guards against). -/
def pyIndexVal (row : Row) (i : Int) : Int :=
  if 0 ≤ i then row.getD i.toNat 0 else row.getD (row.length - i.natAbs) 0

/-- Python's `row[i]` with its error behaviour: `IndexError` when `i` is not a
valid (possibly negative) index. -/
def pyGet (row : Row) (i : Int) : Except String Int :=
  if 0 ≤ i then
    if i < (row.length : Int) then .ok (pyIndexVal row i) else .error "IndexError"
  else
    if i.natAbs ≤ row.length then .ok (pyIndexVal row i) else .error "IndexError"

/-- `app.py` lines 186-197: resolving one fan-out label value against a row.
The index is the parsed reference minus one (or 0 for a non-reference value);
`raw_value` is `row[idx]` when the row is non-empty and `len(row) > idx`,
otherwise `None`; the result is sanitized. -/
def fanout_label_value (row : Row) (v : String) : String :=
  let idx : Int := match parseColumnRef v with
    | some n => (n : Int) - 1
    | none => 0
  let raw : Option String :=
    if !row.isEmpty && decide (idx < (row.length : Int)) then
      some (toString (pyIndexVal row idx))
    else none
  sanitize_label_value raw

/-- One gauge of a query's `gauges:` list: name, extra labels (`{}` when
absent) and the optional configured `col` (1-based). -/
structure GaugeSpec where
  name : String
  extra_labels : List (String × String)
  col : Option Int

/-- A published sample: gauge name, value, labels. -/
abbrev Sample := String × Int × List (String × String)

/-- `app.py` lines 181-182 and 199-200: `if row and len(row) >= col:
exporter.set_gauge(g["name"], row[col], labels_g)`.  The guard admits
`col == len(row)`, where `row[col]` then raises `IndexError`. -/
def emit_row_sample (g : GaugeSpec) (row : Row) (col : Int)
    (labels_g : List (String × String)) : Except String (List Sample) :=
  if !row.isEmpty && decide (col ≤ (row.length : Int)) then
    match pyGet row col with
    | .ok v => .ok [(g.name, v, labels_g)]
    | .error e => .error e
  else .ok []

/-- Fixed mode (`app.py` lines 177-182): at most one sample, from the first
row only. -/
def process_gauge_fixed (res : List Row) (g : GaugeSpec) (col : Int)
    (cLabels : List (String × String)) : Except String (List Sample) :=
  match res with
  | [] => .ok []
  | row :: _ => emit_row_sample g row col (g.extra_labels ++ cLabels)

/-- One iteration of the fan-out loop (`app.py` lines 184-200): every label
value is resolved against the row, then the value column is read. -/
def process_gauge_fanout_row (g : GaugeSpec) (row : Row) (col : Int)
    (cLabels : List (String × String)) : Except String (List Sample) :=
  let g_labels_aux := g.extra_labels.map (fun kv => (kv.1, fanout_label_value row kv.2))
  emit_row_sample g row col (g_labels_aux ++ cLabels)

/-- Fan-out mode (`app.py` lines 183-200): one pass over all rows; an
exception aborts the remaining rows, as a Python `for` loop would. -/
def process_gauge_fanout (res : List Row) (g : GaugeSpec) (col : Int)
    (cLabels : List (String × String)) : Except String (List Sample) :=
  match res with
  | [] => .ok []
  | row :: rest => do
    let s ← process_gauge_fanout_row g row col cLabels
    let r ← process_gauge_fanout rest g col cLabels
    .ok (s ++ r)

/-- Mapping one gauge spec over the query result (`app.py` lines 164-201):
the value column is the configured `col` minus one, or the gauge's ordinal
position `g_counter`; mode selection per `valuesHaveSpecialLabels`. -/
def process_gauge (res : List Row) (g : GaugeSpec) (g_counter : Nat)
    (cLabels : List (String × String)) : Except String (List Sample) :=
  let col : Int := match g.col with
    | some c => c - 1
    | none => (g_counter : Int)
  if valuesHaveSpecialLabels g.extra_labels then
    process_gauge_fanout res g col cLabels
  else
    process_gauge_fixed res g col cLabels

/-! ### Connection pool (`db2Prom/connection_pool.py`)
Connections are identified by numbers; the state keeps the FIFO queue of
pooled connections and the list of connections `close()` has closed. -/

structure PoolState where
  queue : List Nat
  closedConns : List Nat
deriving DecidableEq

namespace ConnectionPool

/-- `acquire` (lines 25-27): `await self._queue.get()` — head of the FIFO
queue, or suspension (`none`) when the queue is empty. -/
def acquire (s : PoolState) : Option (Nat × PoolState) :=
  match s.queue with
  | [] => none
  | c :: rest => some (c, { s with queue := rest })

/-- `release` (lines 29-31): `self._queue.put_nowait(conn)`, unconditionally. -/
def release (s : PoolState) (c : Nat) : PoolState :=
  { s with queue := s.queue ++ [c] }

/-- `close` (lines 33-41): drain the queue, closing each drained connection.
No flag is set and no waiter is woken. -/
def close (s : PoolState) : PoolState :=
  { queue := [], closedConns := s.closedConns ++ s.queue }

end ConnectionPool

/-! ### Streaming query executor (`db2Prom/db2.py`) -/

namespace Db2

/-- `if max_rows is not None and row_count >= max_rows: break`
(`db2.py` line 125). -/
def maxRowsReached (maxRows : Option Nat) (rowCount : Nat) : Bool :=
  match maxRows with
  | some k => k ≤ rowCount
  | none => false

/-- The fetch loop of `run_query` (`db2.py` lines 100-132), with every queue
`put` succeeding (the discard path needs a full queue under a stalled
consumer, which is outside these claims).  The cursor list models
`ibm_db.fetch_tuple`: the head is the row just fetched, `[]` is an exhausted
cursor.  Arguments: cursor, `max_rows`, rows produced so far.  Returns the
rows put on the queue from this point on and the number of further
`fetch_tuple` calls made. -/
def fetchLoop : List Row → Option Nat → Nat → List Row × Nat
  | [], _, _ => ([], 0)
  | row :: rest, maxRows, rowCount =>
    if maxRowsReached maxRows (rowCount + 1) then ([row], 0)
    else
      let r := fetchLoop rest maxRows (rowCount + 1)
      (row :: r.1, r.2 + 1)

/-- `run_query` row production (`db2.py` lines 90-141): one initial
`fetch_tuple` call, then the loop.  Returns the rows produced and the total
number of `fetch_tuple` calls. -/
def run_query (avail : List Row) (maxRows : Option Nat) : List Row × Nat :=
  let r := fetchLoop avail maxRows 0
  (r.1, r.2 + 1)

/-- `Db2Connection` connection state: `self.conn` is `None` or a live driver
connection. -/
inductive ConnState
  | disconnected
  | connected
deriving DecidableEq

/-- Error taxonomy of `execute`: the `asyncio.TimeoutError` raised on the
timeout path (`db2.py` line 148/165) versus the worker exception re-raised at
line 187. -/
inductive ExecErr
  | timeout
  | execFailure (msg : String)
deriving DecidableEq

/-- How the in-flight execution ends, abstracting the worker/queue
concurrency: all rows arrive, the worker records an exception, or
`asyncio.wait_for` expires before the sentinel arrives. -/
inductive ExecOutcome
  | rowsDelivered (rows : List Row)
  | workerError (msg : String)
  | timedOut

/-- Result of one `execute` call: what the consumer sees, the connection state
afterwards, the `set_gauge` calls made, and whether the driver was touched. -/
structure ExecResult where
  result : Except ExecErr (List Row)
  connAfter : ConnState
  gaugeSets : List (String × Int × List (String × String))
  driverTouched : Bool

/-- Control-flow skeleton of `Db2Connection.execute` (`db2.py` lines 65-201):
  * lines 80-81 — a disconnected connection returns zero rows at once,
    before any driver object is created;
  * normal completion — rows are yielded and the connection stays live;
  * worker exception (lines 133-134, 186-187, 194-201) — the captured
    exception is re-raised, the connection closed and set to `None`;
  * timeout (lines 148-165, 194-201) — `db2_query_timeout` is set to 1 for
    the query's name, `self.conn` is set to `None`, and the
    `asyncio.TimeoutError` propagates. -/
def execute (conn : ConnState) (name : String) (outcome : ExecOutcome) : ExecResult :=
  match conn with
  | .disconnected => ⟨.ok [], .disconnected, [], false⟩
  | .connected =>
    match outcome with
    | .rowsDelivered rows => ⟨.ok rows, .connected, [], true⟩
    | .workerError msg => ⟨.error (.execFailure msg), .disconnected, [], true⟩
    | .timedOut =>
        ⟨.error .timeout, .disconnected,
         [("db2_query_timeout", 1, [("query", name)])], true⟩

/-- Shared cleanup state of one `execute` call: the worker's local `stmt`
variable, the `stmt_holder["stmt"]` cell, and the number of
`ibm_db.free_stmt` calls made so far. -/
structure CleanupState where
  workerStmt : Option Nat
  stmtHolder : Option Nat
  freeCount : Nat
deriving DecidableEq

/-- The worker's `finally` block (`db2.py` lines 135-141): frees when its
local `stmt` is set — regardless of `stmt_holder` — then clears the holder. -/
def workerFinallyCleanup (s : CleanupState) : CleanupState :=
  match s.workerStmt with
  | some _ => { s with freeCount := s.freeCount + 1, stmtHolder := none }
  | none => s

/-- The consumer's `finally` block (`db2.py` lines 169-178): frees when
`stmt_holder["stmt"]` is still set, then clears it. -/
def consumerFinallyCleanup (s : CleanupState) : CleanupState :=
  match s.stmtHolder with
  | some _ => { s with freeCount := s.freeCount + 1, stmtHolder := none }
  | none => s

/-- A prepared statement before any cleanup ran: the worker's local variable
and the holder both reference it (`db2.py` lines 94-95). -/
def preparedCleanupState : CleanupState := ⟨some 0, some 0, 0⟩

end Db2

/-! ### Scheduler backoff (`app.py`: `query_set` lines 122-219) -/

/-- The failure branch of the scheduler sleep (`app.py` line 217):
`retry_delay = min(retry_delay * 2, max_retry_delay)`. -/
def nextRetryDelay (max_retry_delay d : ℚ) : ℚ :=
  min (d * 2) max_retry_delay

/-- The success branch (`app.py` line 213): the delay resets to the base
`time_interval`. -/
def resetRetryDelay (time_interval : ℚ) : ℚ := time_interval

/-- The retry delay slept after `k` consecutive failures, starting from a
fresh or just-successful cycle where `retry_delay = time_interval`
(`app.py` lines 124 and 213). -/
def delayAfterFailures (time_interval max_retry_delay : ℚ) : Nat → ℚ
  | 0 => time_interval
  | k + 1 => nextRetryDelay max_retry_delay (delayAfterFailures time_interval max_retry_delay k)

/-! ### Metrics registry (`db2Prom/prometheus.py`) -/

/-- `CustomExporter` state relevant to gauge registration: the names
registered in `self.registry` (the `Gauge` constructor registers its name and
raises `ValueError` on a duplicate), the `self.metric_dict` name → handle
map, a supply of fresh handles, and the warnings logged. -/
structure ExporterState where
  registryNames : List String
  metricDict : List (String × Nat)
  nextHandle : Nat
  warnings : List String
deriving DecidableEq

namespace CustomExporter

/-- `create_gauge` (`prometheus.py` lines 61-83): constructing the `Gauge`
raises `ValueError` when the name is already registered, which is caught and
logged as a warning, leaving `metric_dict` untouched; otherwise the new gauge
is registered and stored in `metric_dict`. -/
def create_gauge (s : ExporterState) (name desc : String) (labels : List String) :
    ExporterState :=
  if name ∈ s.registryNames then
    { s with warnings := s.warnings ++ [name] }
  else
    { registryNames := s.registryNames ++ [name]
      metricDict := s.metricDict ++ [(name, s.nextHandle)]
      nextHandle := s.nextHandle + 1
      warnings := s.warnings }

/-- The gauge handle `set_gauge` would use: `self.metric_dict[metric_name]`
(`prometheus.py` line 91). -/
def gaugeHandle (s : ExporterState) (name : String) : Option Nat :=
  (s.metricDict.reverse.find? (fun kv => kv.1 == name)).map Prod.snd

end CustomExporter

/-! ## Theorems -/

theorem sanitize_length_le (s : String) :
    (sanitize_label_value (some s)).length ≤ MAX_LABEL_LENGTH := by
  unfold sanitize_label_value
  dsimp only
  split_ifs with h1 h2
  · decide
  · simp only [String.length, List.length_take]
    omega
  · omega

theorem sanitize_chars_allowed (s : String) (c : Char)
    (hmem : c ∈ (sanitize_label_value (some s)).data) :
    isAllowedLabelChar c = true ∨ sanitize_label_value (some s) = INVALID_LABEL_STR := by
  by_cases h : String.mk (s.data.map sanitizeChar) = ""
  · right
    simp [sanitize_label_value, h]
  · left
    have hsub : c ∈ s.data.map sanitizeChar := by
      unfold sanitize_label_value at hmem
      dsimp only at hmem
      rw [if_neg h] at hmem
      by_cases h2 : MAX_LABEL_LENGTH < (String.mk (s.data.map sanitizeChar)).length
      · rw [if_pos h2] at hmem
        exact List.mem_of_mem_take hmem
      · rw [if_neg h2] at hmem
        exact hmem
    obtain ⟨c0, _, hc0⟩ := List.mem_map.mp hsub
    subst hc0
    unfold sanitizeChar
    by_cases ha : isAllowedLabelChar c0
    · simp [ha]
    · simp [ha]
      rfl

/-- Claim C8: the label sanitizer maps `"inv@lid label!!" + "x"*200` to a
string starting with `inv_lid_label__` of length at most 100, maps `None` and
the empty string to the sentinel, and in general keeps only alphanumerics and
underscores (unless it falls back to the sentinel) and never exceeds the
maximum length. -/
theorem sanitize_label_value_spec :
    (sanitize_label_value (some sanitizeTestInput)).data.take 15 = "inv_lid_label__".data ∧
    (sanitize_label_value (some sanitizeTestInput)).length ≤ 100 ∧
    sanitize_label_value none = INVALID_LABEL_STR ∧
    sanitize_label_value (some "") = INVALID_LABEL_STR ∧
    (∀ s : String, (sanitize_label_value (some s)).length ≤ MAX_LABEL_LENGTH) ∧
    (∀ (s : String) (c : Char), c ∈ (sanitize_label_value (some s)).data →
      isAllowedLabelChar c = true ∨ sanitize_label_value (some s) = INVALID_LABEL_STR) :=
  ⟨by decide, by decide, rfl, by decide, sanitize_length_le, sanitize_chars_allowed⟩

/-- Witness for C8: the sanitizer facts evaluated at the concrete inputs
`"a!"` and `'_'`. -/
theorem sanitize_label_value_spec_witness :
    '_' ∈ (sanitize_label_value (some "a!")).data ∧
    (isAllowedLabelChar '_' = true ∨ sanitize_label_value (some "a!") = INVALID_LABEL_STR) :=
  ⟨by decide, sanitize_label_value_spec.2.2.2.2.2 "a!" '_' (by decide)⟩

/-- Claim C1 (code bug): with connections `connWithRegion` and `connPlain`
configured, the union of declared extra-label keys (`get_labels_list`)
contains `region`, but the static labels `query_set` attaches to a
`connPlain` sample are defaulted from the hardcoded `max_conn_labels` literal
and do not contain a `region` key at all — in particular `region` is not
defaulted to the sentinel — so the two connections' samples for one metric
name do not share a label-key set.  Conversely the sample carries `dbenv`,
a key absent from the union the gauges were registered with. -/
theorem query_set_label_keys_mismatch :
    "region" ∈ get_labels_list [connWithRegion, connPlain] ∧
    "region" ∉ dictKeys (sample_labels [] connPlain) ∧
    "region" ∈ dictKeys (sample_labels [] connWithRegion) ∧
    dictGet (sample_labels [] connPlain) "region" ≠ some INVALID_LABEL_STR ∧
    "dbenv" ∈ dictKeys (sample_labels [] connPlain) ∧
    "dbenv" ∉ get_labels_list [connWithRegion, connPlain] := by
  decide

/-- Claim C2 (code bug): a fixed-mode gauge with configured `col: 2` mapped
over the single row `(5,)` — row length 1, equal to the 0-based value-column
index 1 — passes the `len(row) >= col` guard and `row[col]` raises
`IndexError`, where the claim says the mapping never raises.  The adjacent
true parts also evaluated: an out-of-range fan-out label reference resolves
to the sentinel, a row strictly shorter than the value column yields no
sample, and a long-enough row yields the value at the 0-based index. -/
theorem process_gauge_short_row_raises :
    process_gauge [[5]] ⟨"m", [], some 2⟩ 0 [] = .error "IndexError" ∧
    fanout_label_value [7] "$3" = INVALID_LABEL_STR ∧
    process_gauge [[5]] ⟨"m", [], some 3⟩ 0 [] = .ok [] ∧
    process_gauge [[5, 8]] ⟨"m", [], some 2⟩ 0 [] = .ok [("m", 8, [])] :=
  ⟨rfl, rfl, rfl, rfl⟩

/-- Claim C3 (code bug): with a one-connection pool, after `acquire` and
`close` (which closes nothing, the loaned connection not being in the
queue), `release` re-inserts the connection and a subsequent `acquire`
succeeds and returns it — `close` neither blocks later acquires nor prevents
reintroduction. -/
theorem pool_acquire_after_close :
    ConnectionPool.acquire (⟨[7], []⟩ : PoolState) = some (7, ⟨[], []⟩) ∧
    ConnectionPool.close (⟨[], []⟩ : PoolState) = ⟨[], []⟩ ∧
    ConnectionPool.acquire
        (ConnectionPool.release (ConnectionPool.close (⟨[], []⟩ : PoolState)) 7) =
      some (7, ⟨[], []⟩) ∧
    (ConnectionPool.close (⟨[], []⟩ : PoolState)).closedConns = [] := by
  decide

/-- Claim C4 (code bug): starting from a prepared statement, on the
timeout/cancellation exit path the consumer's finally block runs first,
observes the still-set `stmt_holder` and frees, and the worker's finally
block later frees again through its local variable — two `free_stmt` calls;
on the normal path, where the worker's cleanup precedes the consumer's,
exactly one. -/
theorem execute_cleanup_double_free :
    (Db2.workerFinallyCleanup (Db2.consumerFinallyCleanup Db2.preparedCleanupState)).freeCount
        = 2 ∧
    (Db2.consumerFinallyCleanup (Db2.workerFinallyCleanup Db2.preparedCleanupState)).freeCount
        = 1 :=
  ⟨rfl, rfl⟩

theorem delayAfterFailures_eq (base cap : ℚ) (hcap : 0 ≤ cap) :
    ∀ K : Nat, 1 ≤ K → delayAfterFailures base cap K = min (base * 2 ^ K) cap := by
  intro K hK
  induction K with
  | zero => exact absurd hK (by norm_num)
  | succ k ih =>
    rcases Nat.eq_zero_or_pos k with hk | hk
    · subst hk
      simp [delayAfterFailures, nextRetryDelay, pow_one]
    · have h := ih hk
      show nextRetryDelay cap (delayAfterFailures base cap k) = _
      rw [h]
      unfold nextRetryDelay
      calc min (min (base * 2 ^ k) cap * 2) cap
          = min (min (base * 2 ^ k * 2) (cap * 2)) cap := by
            rw [min_mul_of_nonneg _ _ (by norm_num : (0:ℚ) ≤ 2)]
        _ = min (base * 2 ^ k * 2) (min (cap * 2) cap) := min_assoc _ _ _
        _ = min (base * 2 ^ k * 2) cap := by
            rw [min_eq_right (le_mul_of_one_le_right hcap (by norm_num))]
        _ = min (base * 2 ^ (k + 1)) cap := by rw [pow_succ, ← mul_assoc]

/-- Claim C5: starting from the base interval, after `K` consecutive failures
the retry delay equals `min(base * 2^K, max_retry_delay)`; adding a jitter of
at most 10% of that delay keeps the total at or below `max_retry_delay * 1.1`;
and a success resets the delay to the base interval. -/
theorem query_set_backoff_spec (base cap j : ℚ) (K : Nat)
    (hcap : 0 ≤ cap) (hK : 1 ≤ K) (hj0 : 0 ≤ j)
    (hj : j ≤ delayAfterFailures base cap K / 10) :
    delayAfterFailures base cap K = min (base * 2 ^ K) cap ∧
    delayAfterFailures base cap K + j ≤ cap * (11 / 10) ∧
    resetRetryDelay base = base := by
  have heq := delayAfterFailures_eq base cap hcap K hK
  refine ⟨heq, ?_, rfl⟩
  have hle : delayAfterFailures base cap K ≤ cap := by
    rw [heq]; exact min_le_right _ _
  linarith

/-- Witness for C5: base 5, cap 300, three consecutive failures, jitter 0. -/
theorem query_set_backoff_spec_witness :
    delayAfterFailures 5 300 3 = min (5 * 2 ^ 3) 300 ∧
    delayAfterFailures 5 300 3 + 0 ≤ 300 * (11 / 10) ∧
    resetRetryDelay 5 = 5 :=
  query_set_backoff_spec 5 300 0 3 (by norm_num) (by norm_num) (by norm_num)
    (by simp only [delayAfterFailures, nextRetryDelay, min_def]; norm_num)

/-- Claim C6: `execute` on a live connection whose wait exceeds the timeout
raises the timeout error — a constructor distinct from an execution
failure — sets `db2_query_timeout` to 1 labeled with the query's name, and
leaves the connection disconnected. -/
theorem execute_timeout_spec (name : String) :
    Db2.execute .connected name .timedOut =
      ⟨.error .timeout, .disconnected,
       [("db2_query_timeout", 1, [("query", name)])], true⟩ ∧
    ∀ msg : String, Db2.ExecErr.timeout ≠ Db2.ExecErr.execFailure msg :=
  ⟨rfl, fun msg h => Db2.ExecErr.noConfusion h⟩

/-- Witness for C6: the timeout behaviour at the concrete query name `q1`. -/
theorem execute_timeout_spec_witness :
    Db2.execute .connected "q1" .timedOut =
      ⟨.error .timeout, .disconnected,
       [("db2_query_timeout", 1, [("query", "q1")])], true⟩ ∧
    Db2.ExecErr.timeout ≠ Db2.ExecErr.execFailure "boom" :=
  ⟨(execute_timeout_spec "q1").1, (execute_timeout_spec "q1").2 "boom"⟩

theorem fetchLoop_spec (K : Nat) :
    ∀ (cursor : List Row) (rowCount : Nat), rowCount < K → K ≤ rowCount + cursor.length →
      (Db2.fetchLoop cursor (some K) rowCount).1.length = K - rowCount ∧
      (Db2.fetchLoop cursor (some K) rowCount).2 = K - rowCount - 1 := by
  intro cursor
  induction cursor with
  | nil =>
    intro rowCount h1 h2
    simp only [List.length_nil] at h2
    omega
  | cons row rest ih =>
    intro rowCount h1 h2
    by_cases hstop : K ≤ rowCount + 1
    · have hcond : Db2.maxRowsReached (some K) (rowCount + 1) = true := by
        simp [Db2.maxRowsReached, hstop]
      simp only [Db2.fetchLoop, hcond, if_true]
      simp only [List.length_singleton]
      omega
    · have hcond : Db2.maxRowsReached (some K) (rowCount + 1) = false := by
        simp [Db2.maxRowsReached]
        omega
      have hrec := ih (rowCount + 1) (by omega)
        (by simp only [List.length_cons] at h2; omega)
      simp only [Db2.fetchLoop, hcond, Bool.false_eq_true, if_false, List.length_cons]
      omega

/-- Claim C7: with `max_rows = K` (`K ≥ 1`) over a source holding more than
`K` rows, `run_query` produces exactly `K` rows and makes exactly `K`
`fetch_tuple` calls — it does not fetch past the `K`-th produced row. -/
theorem execute_max_rows_spec (avail : List Row) (K : Nat)
    (hK : 1 ≤ K) (hM : K < avail.length) :
    (Db2.run_query avail (some K)).1.length = K ∧
    (Db2.run_query avail (some K)).2 = K := by
  have h := fetchLoop_spec K avail 0 (by omega) (by omega)
  unfold Db2.run_query
  dsimp only
  omega

/-- Witness for C7: `max_rows = 2` over three available rows yields two rows
with two fetch calls. -/
theorem execute_max_rows_spec_witness :
    (Db2.run_query [[1], [2], [3]] (some 2)).1.length = 2 ∧
    (Db2.run_query [[1], [2], [3]] (some 2)).2 = 2 :=
  execute_max_rows_spec [[1], [2], [3]] 2 (by decide) (by decide)

theorem create_gauge_mem_warns (s : ExporterState) (name desc : String)
    (labels : List String) (hmem : name ∈ s.registryNames) :
    CustomExporter.create_gauge s name desc labels =
      { s with warnings := s.warnings ++ [name] } := by
  unfold CustomExporter.create_gauge
  rw [if_pos hmem]

theorem create_gauge_registers (s : ExporterState) (name desc : String)
    (labels : List String) :
    name ∈ (CustomExporter.create_gauge s name desc labels).registryNames := by
  unfold CustomExporter.create_gauge
  split_ifs with h
  · exact h
  · simp

/-- Claim C9: registering a gauge name twice does not fail and does not
replace the metric — the second `create_gauge` leaves `metric_dict`, the
registry and the handle `set_gauge` looks up unchanged, and only appends a
duplicate-registration warning. -/
theorem create_gauge_idempotent (s : ExporterState) (name desc1 desc2 : String)
    (labels1 labels2 : List String) :
    CustomExporter.create_gauge (CustomExporter.create_gauge s name desc1 labels1)
        name desc2 labels2 =
      { CustomExporter.create_gauge s name desc1 labels1 with
        warnings := (CustomExporter.create_gauge s name desc1 labels1).warnings ++ [name] } ∧
    CustomExporter.gaugeHandle
        (CustomExporter.create_gauge (CustomExporter.create_gauge s name desc1 labels1)
          name desc2 labels2) name =
      CustomExporter.gaugeHandle (CustomExporter.create_gauge s name desc1 labels1) name := by
  have h := create_gauge_mem_warns (CustomExporter.create_gauge s name desc1 labels1)
    name desc2 labels2 (create_gauge_registers s name desc1 labels1)
  exact ⟨h, by rw [h]; rfl⟩

/-- Claim C10: `execute` on a connection whose driver connection is not
established yields zero rows, ends in the disconnected state, sets no gauge,
and never touches the driver — whatever would have happened in flight. -/
theorem execute_disconnected_spec (name : String) (outcome : Db2.ExecOutcome) :
    Db2.execute .disconnected name outcome = ⟨.ok [], .disconnected, [], false⟩ := rfl

end Db2Prom
